import Mathlib

/-!
Verification of the santa sync-server core (package `santa`).

The enum types `RuleType`, `Policy`, `ClientMode` and the payload structures
are embedded directly from `src/santa/santa.go`.  Go's `type T int` enums are
modelled as `Int` with named constants; a Go method with pointer receiver
`func (r *T) UnmarshalText(text []byte) error` is modelled by explicit state
passing `T → String → T × Option String` (the new receiver value and the
error, `none` meaning success); `func (r T) MarshalText() ([]byte, error)` is
modelled as `T → Option String × Option String` (the bytes, `none` for Go's
nil slice, and the error).

The protocol/session/resolver components (PolicyPrecedenceEngine,
BatchCursorPager, SyncSessionManager, rule upsert) are referenced by the
specification but their code is not part of the source tree; they are
modelled from the specification text, each such definition marked
`Modelled from the spec:`.
-/

namespace Moroz

/-- Go: `type RuleType int` (src/santa/santa.go line 60). -/
abbrev RuleType := Int

/-- Go const `Binary RuleType = iota` (value 0). -/
def Binary : RuleType := 0

/-- Go const `Certificate` (value 1). -/
def Certificate : RuleType := 1

/-- Go const `TeamID` (value 2). -/
def TeamID : RuleType := 2

/-- Go const `SigningID` (value 3). -/
def SigningID : RuleType := 3

/-- Go: `func (r *RuleType) UnmarshalText(text []byte) error`
(src/santa/santa.go lines 83-97).  The switch assigns to the receiver on a
recognized string and returns nil; on the default case it returns an error
without touching the receiver. -/
def RuleType.UnmarshalText (r : RuleType) (text : String) : RuleType × Option String :=
  if text = "BINARY" then (Binary, none)
  else if text = "CERTIFICATE" then (Certificate, none)
  else if text = "TEAMID" then (TeamID, none)
  else if text = "SIGNINGID" then (SigningID, none)
  else (r, some ("unknown rule_type value \"" ++ text ++ "\""))

/-- Go: `func (r RuleType) MarshalText() ([]byte, error)`
(src/santa/santa.go lines 99-112). -/
def RuleType.MarshalText (r : RuleType) : Option String × Option String :=
  if r = Binary then (some "BINARY", none)
  else if r = Certificate then (some "CERTIFICATE", none)
  else if r = TeamID then (some "TEAMID", none)
  else if r = SigningID then (some "SIGNINGID", none)
  else (none, some ("unknown rule_type " ++ toString r))

/-- Go: `type Policy int` (src/santa/santa.go line 115). -/
abbrev Policy := Int

/-- Go const `Blocklist Policy = iota` (value 0). -/
def Blocklist : Policy := 0

/-- Go const `Allowlist` (value 1). -/
def Allowlist : Policy := 1

/-- Go const `AllowlistCompiler` (value 2). -/
def AllowlistCompiler : Policy := 2

/-- Go const `Remove` (value 3). -/
def Remove : Policy := 3

/-- Go: `func (p *Policy) UnmarshalText(text []byte) error`
(src/santa/santa.go lines 127-141). -/
def Policy.UnmarshalText (p : Policy) (text : String) : Policy × Option String :=
  if text = "BLOCKLIST" then (Blocklist, none)
  else if text = "ALLOWLIST" then (Allowlist, none)
  else if text = "ALLOWLIST_COMPILER" then (AllowlistCompiler, none)
  else if text = "REMOVE" then (Remove, none)
  else (p, some ("unknown policy value \"" ++ text ++ "\""))

/-- Go: `func (p Policy) MarshalText() ([]byte, error)`
(src/santa/santa.go lines 143-156). -/
def Policy.MarshalText (p : Policy) : Option String × Option String :=
  if p = Blocklist then (some "BLOCKLIST", none)
  else if p = Allowlist then (some "ALLOWLIST", none)
  else if p = AllowlistCompiler then (some "ALLOWLIST_COMPILER", none)
  else if p = Remove then (some "REMOVE", none)
  else (none, some ("unknown policy " ++ toString p))

/-- Go: `type ClientMode int` (src/santa/santa.go line 159). -/
abbrev ClientMode := Int

/-- Go const `Monitor ClientMode = iota` (value 0). -/
def Monitor : ClientMode := 0

/-- Go const `Lockdown` (value 1). -/
def Lockdown : ClientMode := 1

/-- Go: `func (c *ClientMode) UnmarshalText(text []byte) error`
(src/santa/santa.go lines 166-176). -/
def ClientMode.UnmarshalText (c : ClientMode) (text : String) : ClientMode × Option String :=
  if text = "MONITOR" then (Monitor, none)
  else if text = "LOCKDOWN" then (Lockdown, none)
  else (c, some ("unknown client_mode value \"" ++ text ++ "\""))

/-- Go: `func (c ClientMode) MarshalText() ([]byte, error)`
(src/santa/santa.go lines 178-187). -/
def ClientMode.MarshalText (c : ClientMode) : Option String × Option String :=
  if c = Monitor then (some "MONITOR", none)
  else if c = Lockdown then (some "LOCKDOWN", none)
  else (none, some ("unknown client_mode " ++ toString c))

/-- Go: `type Rule struct` (src/santa/santa.go lines 20-25). -/
structure Rule where
  RuleType : RuleType
  Policy : Policy
  Identifier : String
  CustomMessage : String
deriving DecidableEq, Repr

/-- Go: `type EventPayload struct` (src/santa/santa.go lines 53-57).
`FileSHA` carries the json tag `file_sha256`, `UnixTime` carries
`execution_time` (a float64, modelled as `Rat`), and `Content`
(a `json.RawMessage`, i.e. a byte slice, modelled as `List Nat`) carries the
tag `"-"`. -/
structure EventPayload where
  FileSHA : String
  UnixTime : Rat
  Content : List Nat
deriving DecidableEq, Repr

/-- JSON value for the wire model: only the shapes the payloads need. -/
inductive JValue where
  | str (s : String)
  | num (q : Rat)
  | raw (bytes : List Nat)
deriving DecidableEq, Repr

/-- Struct tag of `EventPayload.FileSHA`: `json:"file_sha256"`. -/
def fileSHATag : String := "file_sha256"

/-- Struct tag of `EventPayload.UnixTime`: `json:"execution_time"`. -/
def unixTimeTag : String := "execution_time"

/-- Struct tag of `EventPayload.Content`: `json:"-"` (excluded from JSON). -/
def contentTag : String := "-"

/-- Go `encoding/json` marshalling of `EventPayload`: each field is emitted
under its struct tag, except that a field whose tag is `"-"` is skipped. -/
def EventPayload.marshalJSON (e : EventPayload) : List (String × JValue) :=
  (List.filter (fun f => f.1 ≠ contentTag)
    [(fileSHATag, JValue.str e.FileSHA),
     (unixTimeTag, JValue.num e.UnixTime),
     (contentTag, JValue.raw e.Content)])

/-- Look up a string field in a decoded JSON object, with Go zero value. -/
def getStr (doc : List (String × JValue)) (key : String) : String :=
  match doc.lookup key with
  | some (JValue.str s) => s
  | _ => ""

/-- Look up a number field in a decoded JSON object, with Go zero value. -/
def getNum (doc : List (String × JValue)) (key : String) : Rat :=
  match doc.lookup key with
  | some (JValue.num q) => q
  | _ => 0

/-- Look up a raw field in a decoded JSON object, with Go zero value. -/
def getRaw (doc : List (String × JValue)) (key : String) : List Nat :=
  match doc.lookup key with
  | some (JValue.raw b) => b
  | _ => []

/-- Go `encoding/json` unmarshalling of `EventPayload`: starting from the
zero value, each field whose tag is not `"-"` is populated from the document
under its tag; a field tagged `"-"` keeps the zero value. -/
def EventPayload.unmarshalJSON (doc : List (String × JValue)) : EventPayload :=
  { FileSHA := if fileSHATag = "-" then "" else getStr doc fileSHATag
    UnixTime := if unixTimeTag = "-" then 0 else getNum doc unixTimeTag
    Content := if contentTag = "-" then [] else getRaw doc contentTag }

/-! ## Policy-precedence engine, modelled from the spec (§4.2) -/

/-- Modelled from the spec: the identifiers carried by a binary execution
event — "binary hash, its signing certificate hash, its team identifier,
its signing identifier — zero or more may be present" (§4.2). -/
structure ExecEvent where
  binaryHash : Option String
  certHash : Option String
  teamID : Option String
  signingID : Option String
deriving DecidableEq, Repr

/-- Modelled from the spec: "rules with `Remove` policy are excluded from
the effective set before precedence is applied" (§4.2). -/
def activeRules (rs : List Rule) : List Rule :=
  rs.filter (fun r => r.Policy ≠ Remove)

/-- Modelled from the spec: the rule matching one identifier class of the
event, if the event carries that identifier and a rule for it exists. -/
def findRule (rs : List Rule) (rt : RuleType) (ident : Option String) : Option Rule :=
  match ident with
  | none => none
  | some i => rs.find? (fun r => r.RuleType = rt ∧ r.Identifier = i)

/-- Modelled from the spec: "`AllowlistCompiler` resolves to `Allowlist`
for the immediate verdict" (§4.2). -/
def resolveVerdict (p : Policy) : Policy :=
  if p = AllowlistCompiler then Allowlist else p

/-- Modelled from the spec: "If no rule matches any identifier, the
effective decision is `Blocklist` when `ClientMode=Lockdown`, `Allowlist`
when `ClientMode=Monitor`" (§4.2). -/
def fallbackDecision (mode : ClientMode) : Policy :=
  if mode = Lockdown then Blocklist else Allowlist

/-- Modelled from the spec: the PolicyPrecedenceEngine (§4.2), absent from
the source tree.  Pure function; `Remove` rules are dropped first, then the
tiers are consulted in the precedence order
Binary > SigningID > Certificate > TeamID, and the mode fallback applies
when no tier matches. -/
def effectiveDecision (mode : ClientMode) (rs : List Rule) (ev : ExecEvent) : Policy :=
  let act := activeRules rs
  match findRule act Binary ev.binaryHash with
  | some r => resolveVerdict r.Policy
  | none =>
    match findRule act SigningID ev.signingID with
    | some r => resolveVerdict r.Policy
    | none =>
      match findRule act Certificate ev.certHash with
      | some r => resolveVerdict r.Policy
      | none =>
        match findRule act TeamID ev.teamID with
        | some r => resolveVerdict r.Policy
        | none => fallbackDecision mode

/-- Modelled from the spec: rule upsert into a machine's active rule set —
"(MachineID, RuleType, Identifier) is unique within a machine's active rule
set — the engine must deduplicate/override on conflicting upserts, with
`Remove` policy deleting the tuple rather than adding it" (§3). -/
def applyRule (rs : List Rule) (r : Rule) : List Rule :=
  let others := rs.filter (fun x => ¬(x.RuleType = r.RuleType ∧ x.Identifier = r.Identifier))
  if r.Policy = Remove then others else others ++ [r]

/-- Modelled from the spec: applying a sequence of rule upserts in order. -/
def applyRules (rs : List Rule) (upserts : List Rule) : List Rule :=
  upserts.foldl applyRule rs

/-! ## BatchCursorPager, modelled from the spec (§4.4, §4.1) -/

/-- Modelled from the spec: "batches of size `Preflight.BatchSize`
(minimum 1; if the configured size is ≤0, a safe default, e.g. 50, must be
substituted)" (§4.4). -/
def normBatchSize (b : Int) : Nat :=
  if b ≤ 0 then 50 else b.toNat

/-- Modelled from the spec: one `DownloadBatch` call of the
BatchCursorPager (§4.1, §4.4) with the rule set unchanged: the cursor is an
offset into the ordered rule sequence; the call returns the next batch of at
most `b` rules, the advanced cursor, and the `done` flag. -/
def downloadBatch (rules : List Rule) (b : Nat) (cursor : Nat) :
    List Rule × Nat × Bool :=
  let batch := (rules.drop cursor).take b
  let next := cursor + batch.length
  (batch, next, decide (rules.length ≤ next))

/-- Modelled from the spec: the client's download phase — "repeated
`DownloadBatch` calls from cursor zero" (§8), each call feeding its
`nextCursor` to the following call, stopping when `done` is reported.
`fuel` bounds the number of calls; any fuel ≥ the rule-set size suffices. -/
def runDownload (rules : List Rule) (b : Nat) (cursor : Nat) : Nat → List (List Rule)
  | 0 => []
  | fuel + 1 =>
    let step := downloadBatch rules b cursor
    if step.2.2 then [step.1] else step.1 :: runDownload rules b step.2.1 fuel

/-! ## SyncSessionManager, modelled from the spec (§4.1) -/

/-- Modelled from the spec: session phases — "States:
`Started → Preflighted → Downloading → EventsUploaded → Committed`
(terminal); `Aborted` (terminal)" (§4.1). -/
inductive SessionState where
  | Started
  | Preflighted
  | Downloading
  | EventsUploaded
  | Committed
  | Aborted
deriving DecidableEq, Repr

/-- Modelled from the spec: the four session-manager calls (§4.1). -/
inductive SessionCall where
  | PreflightCall
  | DownloadBatchCall
  | UploadEventsCall
  | PostflightCall
deriving DecidableEq, Repr

/-- Modelled from the spec: the error kinds of §7. -/
inductive SyncError where
  | InvalidPayload
  | UnknownEnumValue
  | ProtocolViolation
  | CursorStale
  | SessionConflict
  | StoreUnavailable
deriving DecidableEq, Repr

/-- Modelled from the spec: whether a call is in the expected phase order
(§4.1): `Preflight` opens a fresh session; `DownloadBatch` runs after
preflight and may repeat; `UploadEvents` follows the download phase;
`Postflight` commits and is idempotent after commit. -/
def allowedCall : SessionState → SessionCall → Bool
  | SessionState.Started, SessionCall.PreflightCall => true
  | SessionState.Preflighted, SessionCall.DownloadBatchCall => true
  | SessionState.Downloading, SessionCall.DownloadBatchCall => true
  | SessionState.Downloading, SessionCall.UploadEventsCall => true
  | SessionState.EventsUploaded, SessionCall.PostflightCall => true
  | SessionState.Committed, SessionCall.PostflightCall => true
  | _, _ => false

/-- Modelled from the spec: the SyncSessionManager phase transition (§4.1):
calls in the expected order advance the phase; "Any call received out of
the expected phase order fails with `ProtocolViolation` and moves the
session to `Aborted`"; "repeated postflight calls after commit are
no-ops". -/
def sessionStep (s : SessionState) (c : SessionCall) : SessionState × Option SyncError :=
  match s, c with
  | SessionState.Started, SessionCall.PreflightCall => (SessionState.Preflighted, none)
  | SessionState.Preflighted, SessionCall.DownloadBatchCall => (SessionState.Downloading, none)
  | SessionState.Downloading, SessionCall.DownloadBatchCall => (SessionState.Downloading, none)
  | SessionState.Downloading, SessionCall.UploadEventsCall => (SessionState.EventsUploaded, none)
  | SessionState.EventsUploaded, SessionCall.PostflightCall => (SessionState.Committed, none)
  | SessionState.Committed, SessionCall.PostflightCall => (SessionState.Committed, none)
  | _, _ => (SessionState.Aborted, some SyncError.ProtocolViolation)

/-! ## Claims about the enum wire encoding (src/santa/santa.go) -/

/-- Claim C1: for every valid enum value — `RuleType` in
{Binary, Certificate, TeamID, SigningID}, `Policy` in
{Blocklist, Allowlist, AllowlistCompiler, Remove}, `ClientMode` in
{Monitor, Lockdown} — `MarshalText` succeeds, and applying `UnmarshalText`
to its output (from any prior receiver value) yields back the original
value: encode-then-decode is the identity on valid values. -/
theorem claim_C1 :
    (∀ r : RuleType, (r = Binary ∨ r = Certificate ∨ r = TeamID ∨ r = SigningID) →
      ∀ r₀ : RuleType, ∃ s : String,
        RuleType.MarshalText r = (some s, none) ∧
        RuleType.UnmarshalText r₀ s = (r, none)) ∧
    (∀ p : Policy, (p = Blocklist ∨ p = Allowlist ∨ p = AllowlistCompiler ∨ p = Remove) →
      ∀ p₀ : Policy, ∃ s : String,
        Policy.MarshalText p = (some s, none) ∧
        Policy.UnmarshalText p₀ s = (p, none)) ∧
    (∀ c : ClientMode, (c = Monitor ∨ c = Lockdown) →
      ∀ c₀ : ClientMode, ∃ s : String,
        ClientMode.MarshalText c = (some s, none) ∧
        ClientMode.UnmarshalText c₀ s = (c, none)) := by
  refine ⟨?_, ?_, ?_⟩
  · rintro r (rfl | rfl | rfl | rfl) r₀
    · exact ⟨"BINARY", rfl, rfl⟩
    · exact ⟨"CERTIFICATE", rfl, rfl⟩
    · exact ⟨"TEAMID", rfl, rfl⟩
    · exact ⟨"SIGNINGID", rfl, rfl⟩
  · rintro p (rfl | rfl | rfl | rfl) p₀
    · exact ⟨"BLOCKLIST", rfl, rfl⟩
    · exact ⟨"ALLOWLIST", rfl, rfl⟩
    · exact ⟨"ALLOWLIST_COMPILER", rfl, rfl⟩
    · exact ⟨"REMOVE", rfl, rfl⟩
  · rintro c (rfl | rfl) c₀
    · exact ⟨"MONITOR", rfl, rfl⟩
    · exact ⟨"LOCKDOWN", rfl, rfl⟩

/-- Witness for C1: the round trip at `RuleType` value `TeamID` with prior
receiver value `Binary`. -/
theorem claim_C1_witness :
    ∃ s : String, RuleType.MarshalText TeamID = (some s, none) ∧
      RuleType.UnmarshalText Binary s = (TeamID, none) :=
  claim_C1.1 TeamID (Or.inr (Or.inr (Or.inl rfl))) Binary

/-- Claim C2: for every input string not in the recognized wire set,
`UnmarshalText` on each of the three enum types returns an error (the
returned error is `some`, never silently absent). -/
theorem claim_C2 :
    (∀ s : String, s ∉ (["BINARY", "CERTIFICATE", "TEAMID", "SIGNINGID"] : List String) →
      ∀ r₀ : RuleType, ((RuleType.UnmarshalText r₀ s).2).isSome = true) ∧
    (∀ s : String,
      s ∉ (["BLOCKLIST", "ALLOWLIST", "ALLOWLIST_COMPILER", "REMOVE"] : List String) →
      ∀ p₀ : Policy, ((Policy.UnmarshalText p₀ s).2).isSome = true) ∧
    (∀ s : String, s ∉ (["MONITOR", "LOCKDOWN"] : List String) →
      ∀ c₀ : ClientMode, ((ClientMode.UnmarshalText c₀ s).2).isSome = true) := by
  refine ⟨?_, ?_, ?_⟩
  · intro s hs r₀
    simp only [List.mem_cons, List.not_mem_nil, or_false, not_or] at hs
    obtain ⟨h1, h2, h3, h4⟩ := hs
    simp [RuleType.UnmarshalText, h1, h2, h3, h4]
  · intro s hs p₀
    simp only [List.mem_cons, List.not_mem_nil, or_false, not_or] at hs
    obtain ⟨h1, h2, h3, h4⟩ := hs
    simp [Policy.UnmarshalText, h1, h2, h3, h4]
  · intro s hs c₀
    simp only [List.mem_cons, List.not_mem_nil, or_false, not_or] at hs
    obtain ⟨h1, h2⟩ := hs
    simp [ClientMode.UnmarshalText, h1, h2]

/-- Witness for C2: decoding the unrecognized string `"WHITELIST"` fails on
all three enum types. -/
theorem claim_C2_witness :
    ((RuleType.UnmarshalText Binary "WHITELIST").2).isSome = true ∧
    ((Policy.UnmarshalText Blocklist "WHITELIST").2).isSome = true ∧
    ((ClientMode.UnmarshalText Monitor "WHITELIST").2).isSome = true :=
  ⟨claim_C2.1 "WHITELIST" (by decide) Binary,
   claim_C2.2.1 "WHITELIST" (by decide) Blocklist,
   claim_C2.2.2 "WHITELIST" (by decide) Monitor⟩

/-- Claim C3: the wire encodings are exactly the listed sets: `MarshalText`
maps the four `RuleType` values bijectively onto
{"BINARY","CERTIFICATE","TEAMID","SIGNINGID"}, the four `Policy` values
onto {"BLOCKLIST","ALLOWLIST","ALLOWLIST_COMPILER","REMOVE"}, the two
`ClientMode` values onto {"MONITOR","LOCKDOWN"}, and `UnmarshalText`
accepts exactly those strings. -/
theorem claim_C3 :
    (RuleType.MarshalText Binary = (some "BINARY", none) ∧
     RuleType.MarshalText Certificate = (some "CERTIFICATE", none) ∧
     RuleType.MarshalText TeamID = (some "TEAMID", none) ∧
     RuleType.MarshalText SigningID = (some "SIGNINGID", none)) ∧
    (∀ r : RuleType, ∀ s : String, (RuleType.MarshalText r).1 = some s →
      (r = Binary ∧ s = "BINARY") ∨ (r = Certificate ∧ s = "CERTIFICATE") ∨
      (r = TeamID ∧ s = "TEAMID") ∨ (r = SigningID ∧ s = "SIGNINGID")) ∧
    (∀ r₀ : RuleType, ∀ s : String, (RuleType.UnmarshalText r₀ s).2 = none ↔
      s ∈ (["BINARY", "CERTIFICATE", "TEAMID", "SIGNINGID"] : List String)) ∧
    (Policy.MarshalText Blocklist = (some "BLOCKLIST", none) ∧
     Policy.MarshalText Allowlist = (some "ALLOWLIST", none) ∧
     Policy.MarshalText AllowlistCompiler = (some "ALLOWLIST_COMPILER", none) ∧
     Policy.MarshalText Remove = (some "REMOVE", none)) ∧
    (∀ p : Policy, ∀ s : String, (Policy.MarshalText p).1 = some s →
      (p = Blocklist ∧ s = "BLOCKLIST") ∨ (p = Allowlist ∧ s = "ALLOWLIST") ∨
      (p = AllowlistCompiler ∧ s = "ALLOWLIST_COMPILER") ∨ (p = Remove ∧ s = "REMOVE")) ∧
    (∀ p₀ : Policy, ∀ s : String, (Policy.UnmarshalText p₀ s).2 = none ↔
      s ∈ (["BLOCKLIST", "ALLOWLIST", "ALLOWLIST_COMPILER", "REMOVE"] : List String)) ∧
    (ClientMode.MarshalText Monitor = (some "MONITOR", none) ∧
     ClientMode.MarshalText Lockdown = (some "LOCKDOWN", none)) ∧
    (∀ c : ClientMode, ∀ s : String, (ClientMode.MarshalText c).1 = some s →
      (c = Monitor ∧ s = "MONITOR") ∨ (c = Lockdown ∧ s = "LOCKDOWN")) ∧
    (∀ c₀ : ClientMode, ∀ s : String, (ClientMode.UnmarshalText c₀ s).2 = none ↔
      s ∈ (["MONITOR", "LOCKDOWN"] : List String)) := by
  refine ⟨⟨rfl, rfl, rfl, rfl⟩, ?_, ?_, ⟨rfl, rfl, rfl, rfl⟩, ?_, ?_, ⟨rfl, rfl⟩, ?_, ?_⟩
  · intro r s h
    unfold RuleType.MarshalText at h
    split_ifs at h with h1 h2 h3 h4 <;> simp_all
  · intro r₀ s
    unfold RuleType.UnmarshalText
    split_ifs with h1 h2 h3 h4 <;> simp_all
  · intro p s h
    unfold Policy.MarshalText at h
    split_ifs at h with h1 h2 h3 h4 <;> simp_all
  · intro p₀ s
    unfold Policy.UnmarshalText
    split_ifs with h1 h2 h3 h4 <;> simp_all
  · intro c s h
    unfold ClientMode.MarshalText at h
    split_ifs at h with h1 h2 <;> simp_all
  · intro c₀ s
    unfold ClientMode.UnmarshalText
    split_ifs with h1 h2 <;> simp_all

/-- Witness for C3: the image clause at the concrete point
`Policy.MarshalText AllowlistCompiler`. -/
theorem claim_C3_witness :
    (AllowlistCompiler = Blocklist ∧ "ALLOWLIST_COMPILER" = "BLOCKLIST") ∨
    (AllowlistCompiler = Allowlist ∧ "ALLOWLIST_COMPILER" = "ALLOWLIST") ∨
    (AllowlistCompiler = AllowlistCompiler ∧ "ALLOWLIST_COMPILER" = "ALLOWLIST_COMPILER") ∨
    (AllowlistCompiler = Remove ∧ "ALLOWLIST_COMPILER" = "REMOVE") :=
  claim_C3.2.2.2.2.1 AllowlistCompiler "ALLOWLIST_COMPILER" rfl

/-- Claim C8: `UnmarshalText` is atomic on error for all three enum types:
on every unrecognized input string the call returns an error and the
receiver's value is unchanged. -/
theorem claim_C8 :
    (∀ s : String, s ∉ (["BINARY", "CERTIFICATE", "TEAMID", "SIGNINGID"] : List String) →
      ∀ r₀ : RuleType, (RuleType.UnmarshalText r₀ s).1 = r₀ ∧
        ((RuleType.UnmarshalText r₀ s).2).isSome = true) ∧
    (∀ s : String,
      s ∉ (["BLOCKLIST", "ALLOWLIST", "ALLOWLIST_COMPILER", "REMOVE"] : List String) →
      ∀ p₀ : Policy, (Policy.UnmarshalText p₀ s).1 = p₀ ∧
        ((Policy.UnmarshalText p₀ s).2).isSome = true) ∧
    (∀ s : String, s ∉ (["MONITOR", "LOCKDOWN"] : List String) →
      ∀ c₀ : ClientMode, (ClientMode.UnmarshalText c₀ s).1 = c₀ ∧
        ((ClientMode.UnmarshalText c₀ s).2).isSome = true) := by
  refine ⟨?_, ?_, ?_⟩
  · intro s hs r₀
    simp only [List.mem_cons, List.not_mem_nil, or_false, not_or] at hs
    obtain ⟨h1, h2, h3, h4⟩ := hs
    simp [RuleType.UnmarshalText, h1, h2, h3, h4]
  · intro s hs p₀
    simp only [List.mem_cons, List.not_mem_nil, or_false, not_or] at hs
    obtain ⟨h1, h2, h3, h4⟩ := hs
    simp [Policy.UnmarshalText, h1, h2, h3, h4]
  · intro s hs c₀
    simp only [List.mem_cons, List.not_mem_nil, or_false, not_or] at hs
    obtain ⟨h1, h2⟩ := hs
    simp [ClientMode.UnmarshalText, h1, h2]

/-- Witness for C8: decoding `"blocklist"` (wrong case) fails and leaves
each receiver unchanged. -/
theorem claim_C8_witness :
    ((Policy.UnmarshalText Allowlist "blocklist").1 = Allowlist ∧
      ((Policy.UnmarshalText Allowlist "blocklist").2).isSome = true) ∧
    ((RuleType.UnmarshalText SigningID "blocklist").1 = SigningID ∧
      ((RuleType.UnmarshalText SigningID "blocklist").2).isSome = true) ∧
    ((ClientMode.UnmarshalText Lockdown "blocklist").1 = Lockdown ∧
      ((ClientMode.UnmarshalText Lockdown "blocklist").2).isSome = true) :=
  ⟨claim_C8.2.1 "blocklist" (by decide) Allowlist,
   claim_C8.1 "blocklist" (by decide) SigningID,
   claim_C8.2.2 "blocklist" (by decide) Lockdown⟩

/-- Claim C9: `MarshalText` is total and fails cleanly on out-of-range
values: for every integer value outside the declared constants, it returns
an error together with a nil byte slice. -/
theorem claim_C9 :
    (∀ r : RuleType, ¬(r = Binary ∨ r = Certificate ∨ r = TeamID ∨ r = SigningID) →
      (RuleType.MarshalText r).1 = none ∧ ((RuleType.MarshalText r).2).isSome = true) ∧
    (∀ p : Policy, ¬(p = Blocklist ∨ p = Allowlist ∨ p = AllowlistCompiler ∨ p = Remove) →
      (Policy.MarshalText p).1 = none ∧ ((Policy.MarshalText p).2).isSome = true) ∧
    (∀ c : ClientMode, ¬(c = Monitor ∨ c = Lockdown) →
      (ClientMode.MarshalText c).1 = none ∧ ((ClientMode.MarshalText c).2).isSome = true) := by
  refine ⟨?_, ?_, ?_⟩
  · intro r h
    rw [not_or, not_or, not_or] at h
    obtain ⟨h1, h2, h3, h4⟩ := h
    simp [RuleType.MarshalText, h1, h2, h3, h4]
  · intro p h
    rw [not_or, not_or, not_or] at h
    obtain ⟨h1, h2, h3, h4⟩ := h
    simp [Policy.MarshalText, h1, h2, h3, h4]
  · intro c h
    rw [not_or] at h
    obtain ⟨h1, h2⟩ := h
    simp [ClientMode.MarshalText, h1, h2]

/-- Witness for C9: marshalling the out-of-range values 4 (for the two
four-valued enums) and 2 (for `ClientMode`) fails with nil bytes. -/
theorem claim_C9_witness :
    ((RuleType.MarshalText 4).1 = none ∧ ((RuleType.MarshalText 4).2).isSome = true) ∧
    ((Policy.MarshalText 4).1 = none ∧ ((Policy.MarshalText 4).2).isSome = true) ∧
    ((ClientMode.MarshalText 2).1 = none ∧ ((ClientMode.MarshalText 2).2).isSome = true) :=
  ⟨claim_C9.1 4 (by decide), claim_C9.2.1 4 (by decide), claim_C9.2.2 2 (by decide)⟩

/-- Claim C10: `EventPayload.Content` is excluded from the JSON
representation: encoding emits only the `file_sha256` and `execution_time`
fields, and decoding any document leaves `Content` empty. -/
theorem claim_C10 :
    (∀ e : EventPayload,
      (EventPayload.marshalJSON e).map Prod.fst = ["file_sha256", "execution_time"]) ∧
    (∀ doc : List (String × JValue), (EventPayload.unmarshalJSON doc).Content = []) := by
  constructor
  · intro e
    rfl
  · intro doc
    rfl

/-- Claim C7: on a fresh session (`Started`, no preflight yet),
`DownloadBatch` fails with `ProtocolViolation`; in general every call out
of the expected phase order fails with `ProtocolViolation` and moves the
session to `Aborted`. -/
theorem claim_C7 :
    sessionStep SessionState.Started SessionCall.DownloadBatchCall =
      (SessionState.Aborted, some SyncError.ProtocolViolation) ∧
    (∀ s : SessionState, ∀ c : SessionCall, allowedCall s c = false →
      sessionStep s c = (SessionState.Aborted, some SyncError.ProtocolViolation)) := by
  constructor
  · rfl
  · intro s c h
    cases s <;> cases c <;> simp_all [allowedCall, sessionStep]

/-- Witness for C7: `Preflight` arriving on a committed session is out of
order and aborts with `ProtocolViolation`. -/
theorem claim_C7_witness :
    allowedCall SessionState.Committed SessionCall.PreflightCall = false ∧
    sessionStep SessionState.Committed SessionCall.PreflightCall =
      (SessionState.Aborted, some SyncError.ProtocolViolation) :=
  ⟨rfl, claim_C7.2 SessionState.Committed SessionCall.PreflightCall rfl⟩

/-- Helper: the active-rule filter is idempotent. -/
theorem activeRules_idem (rs : List Rule) :
    activeRules (activeRules rs) = activeRules rs := by
  unfold activeRules
  rw [List.filter_filter]
  congr 1
  funext r
  rw [Bool.and_self]

/-- Helper: no rule matches against the empty rule set. -/
theorem findRule_nil (rt : RuleType) (i : Option String) :
    findRule [] rt i = none := by
  cases i <;> rfl

/-- Claim C4: when the rule set contains a Binary rule with `Allowlist`
policy for the event's binary hash H (and, by the uniqueness invariant, no
conflicting Binary rule for H), the effective decision is `Allowlist`
regardless of any rules in the other tiers — in particular a
`TeamID:Blocklist` rule for the event's team — because the Binary tier
outranks SigningID, Certificate and TeamID. -/
theorem claim_C4 (mode : ClientMode) (rs : List Rule) (ev : ExecEvent) (H : String)
    (hev : ev.binaryHash = some H)
    (hex : ∃ r ∈ rs, r.RuleType = Binary ∧ r.Identifier = H ∧ r.Policy = Allowlist)
    (huniq : ∀ r ∈ rs, r.RuleType = Binary → r.Identifier = H → r.Policy = Allowlist) :
    effectiveDecision mode rs ev = Allowlist := by
  obtain ⟨r, hr, hrt, hid, hpol⟩ := hex
  have hact : r ∈ activeRules rs := by
    unfold activeRules
    rw [List.mem_filter]
    refine ⟨hr, ?_⟩
    simp [hpol, Allowlist, Remove]
  have hfind : ∃ r', findRule (activeRules rs) Binary ev.binaryHash = some r' := by
    rw [hev]
    unfold findRule
    rw [← Option.isSome_iff_exists, List.find?_isSome]
    exact ⟨r, hact, by simp [hrt, hid]⟩
  obtain ⟨r', hr'⟩ := hfind
  rw [hev] at hr'
  simp only [findRule] at hr'
  have hpred := List.find?_some hr'
  simp only [decide_eq_true_eq] at hpred
  obtain ⟨hrt', hid'⟩ := hpred
  have hmem : r' ∈ activeRules rs := List.mem_of_find?_eq_some hr'
  have hmem' : r' ∈ rs := (List.mem_filter.mp hmem).1
  have hpol' := huniq r' hmem' hrt' hid'
  simp only [effectiveDecision, hev, findRule, hr', hpol']
  rfl

/-- Witness for C4: the spec's concrete scenario — rules
`{Binary:Allowlist for "H", TeamID:Blocklist for "T"}` and an event with
binary hash "H" and team "T" — resolves to `Allowlist` even in Lockdown. -/
theorem claim_C4_witness :
    effectiveDecision Lockdown
      [⟨Binary, Allowlist, "H", ""⟩, ⟨TeamID, Blocklist, "T", ""⟩]
      ⟨some "H", none, some "T", none⟩ = Allowlist :=
  claim_C4 Lockdown
    [⟨Binary, Allowlist, "H", ""⟩, ⟨TeamID, Blocklist, "T", ""⟩]
    ⟨some "H", none, some "T", none⟩ "H" rfl (by decide) (by decide)

/-- Claim C5: `Remove` rules never contribute to the effective decision:
the decision over any rule set equals the decision over its
`Remove`-free subset; and in the spec's concrete scenario — upserting
`Certificate:Allowlist` then `Certificate:Remove` for the same identifier
into an empty store — no active certificate rule remains and every event
then gets the mode-dependent fallback decision. -/
theorem claim_C5 :
    (∀ (mode : ClientMode) (rs : List Rule) (ev : ExecEvent),
      effectiveDecision mode rs ev = effectiveDecision mode (activeRules rs) ev) ∧
    (∀ C : String,
      applyRules [] [⟨Certificate, Allowlist, C, ""⟩, ⟨Certificate, Remove, C, ""⟩] = []) ∧
    (∀ (mode : ClientMode) (ev : ExecEvent),
      effectiveDecision mode [] ev = fallbackDecision mode) := by
  refine ⟨?_, ?_, ?_⟩
  · intro mode rs ev
    simp only [effectiveDecision, activeRules_idem]
  · intro C
    simp [applyRules, applyRule]
  · intro mode ev
    simp [effectiveDecision, activeRules, findRule_nil]

/-- Helper: one step of the download loop over a nonempty remainder:
the collected batches concatenate to the remaining rules and there are
exactly ⌈remaining/b⌉ of them, provided the fuel covers the remainder. -/
theorem runDownload_spec (b : Nat) (hb : 1 ≤ b) :
    ∀ (fuel : Nat) (l : List Rule) (c : Nat), c < l.length → l.length - c ≤ fuel →
      (runDownload l b c fuel).flatten = l.drop c ∧
      (runDownload l b c fuel).length = (l.length - c + b - 1) / b := by
  intro fuel
  induction fuel with
  | zero =>
    intro l c hc hf
    omega
  | succ fuel ih =>
    intro l c hc hf
    have hlen : (l.drop c).length = l.length - c := List.length_drop c l
    have htk : ((l.drop c).take b).length = min b (l.length - c) := by
      rw [List.length_take, hlen]
    simp only [runDownload, downloadBatch]
    split
    next hcond =>
      rw [decide_eq_true_eq, htk] at hcond
      constructor
      · rw [List.flatten_cons, List.flatten_nil, List.append_nil]
        exact List.take_of_length_le (by omega)
      · rw [List.length_singleton]
        exact (Nat.div_eq_of_lt_le (by omega) (by omega)).symm
    next hcond =>
      simp only [decide_eq_true_eq] at hcond
      rw [htk] at hcond
      have hbl2 : ((l.drop c).take b).length = b := by rw [htk]; omega
      rw [hbl2]
      obtain ⟨ihj, ihl⟩ := ih l (c + b) (by omega) (by omega)
      constructor
      · rw [List.flatten_cons, ihj, ← List.drop_drop, List.take_append_drop]
      · rw [List.length_cons, ihl]
        have h1 : l.length - (c + b) + b - 1 = l.length - c - 1 := by omega
        have h2 : l.length - c + b - 1 = l.length - c - 1 + b := by omega
        rw [h1, h2, Nat.add_div_right _ (show 0 < b by omega)]

/-- Helper: the `done` condition of a batch at cursor `i * B` holds exactly
on the last of `k = ⌈N/B⌉` batches, phrased over any `k` sandwiched by the
two division bounds. -/
theorem doneFlag_iff (N B i k : Nat) (hB : 1 ≤ B)
    (hk1 : k * B ≤ N + B - 1) (hk2 : N + B - 1 < (k + 1) * B) (hi : i < k) :
    (N ≤ i * B + min B (N - i * B)) ↔ i + 1 = k := by
  obtain ⟨t, ht⟩ : ∃ t, i * B = t := ⟨_, rfl⟩
  constructor
  · intro hdone
    by_contra hne
    have hlt : i + 2 ≤ k := by omega
    have hmul : (i + 2) * B ≤ k * B := Nat.mul_le_mul_right B hlt
    have e2 : (i + 2) * B = i * B + B + B := by ring
    rw [e2, ht] at hmul
    have hd3 : t + B + B ≤ N + B - 1 := le_trans hmul hk1
    rw [ht] at hdone
    omega
  · intro heq
    have e1 : k * B = i * B + B := by rw [← heq]; ring
    have e3 : (k + 1) * B = k * B + B := by ring
    rw [e3, e1, ht] at hk2
    rw [e1, ht] at hk1
    rw [ht]
    omega

/-- Claim C6: with the rule set unchanged and any batch size B ≥ 1,
repeatedly calling `DownloadBatch` from cursor zero yields exactly ⌈N/B⌉
batches whose in-order concatenation is the full rule set (each rule once),
with the `done` flag true exactly on the last call; and the configured
batch size is always normalized to at least 1. -/
theorem claim_C6 (rules : List Rule) (B : Nat) (hB : 1 ≤ B) :
    (runDownload rules B 0 rules.length).flatten = rules ∧
    (runDownload rules B 0 rules.length).length = (rules.length + B - 1) / B ∧
    (∀ i : Nat, i < (runDownload rules B 0 rules.length).length →
      (((downloadBatch rules B (i * B)).2.2 = true) ↔
        i + 1 = (runDownload rules B 0 rules.length).length)) ∧
    (∀ b : Int, 1 ≤ normBatchSize b) := by
  have hnorm : ∀ b : Int, 1 ≤ normBatchSize b := by
    intro b
    unfold normBatchSize
    split <;> omega
  rcases Nat.eq_zero_or_pos rules.length with h0 | hpos
  · have hnil : rules = [] := List.length_eq_zero.mp h0
    subst hnil
    refine ⟨rfl, (Nat.div_eq_of_lt (by omega)).symm, ?_, hnorm⟩
    intro i hi
    simp only [List.length_nil, runDownload] at hi
    omega
  · obtain ⟨hj, hl⟩ := runDownload_spec B hB rules.length rules 0 hpos (by omega)
    rw [List.drop_zero] at hj
    rw [Nat.sub_zero] at hl
    refine ⟨hj, hl, ?_, hnorm⟩
    intro i hi
    rw [hl] at hi
    rw [hl]
    simp only [downloadBatch, List.length_take, List.length_drop, decide_eq_true_eq]
    exact doneFlag_iff rules.length B i ((rules.length + B - 1) / B) hB
      (Nat.div_mul_le_self _ _)
      ((Nat.div_lt_iff_lt_mul (by omega)).mp (by omega))
      hi

/-- Witness for C6: three rules downloaded with batch size 2 come back as
⌈3/2⌉ = 2 batches concatenating to the original list. -/
theorem claim_C6_witness :
    (1 : Nat) ≤ 2 ∧
    (runDownload ([⟨Binary, Allowlist, "a", ""⟩, ⟨Binary, Allowlist, "b", ""⟩,
        ⟨Binary, Allowlist, "c", ""⟩] : List Rule) 2 0 3).flatten =
      ([⟨Binary, Allowlist, "a", ""⟩, ⟨Binary, Allowlist, "b", ""⟩,
        ⟨Binary, Allowlist, "c", ""⟩] : List Rule) ∧
    (runDownload ([⟨Binary, Allowlist, "a", ""⟩, ⟨Binary, Allowlist, "b", ""⟩,
        ⟨Binary, Allowlist, "c", ""⟩] : List Rule) 2 0 3).length = 2 :=
  ⟨by decide,
   (claim_C6 [⟨Binary, Allowlist, "a", ""⟩, ⟨Binary, Allowlist, "b", ""⟩,
      ⟨Binary, Allowlist, "c", ""⟩] 2 (by decide)).1,
   (claim_C6 [⟨Binary, Allowlist, "a", ""⟩, ⟨Binary, Allowlist, "b", ""⟩,
      ⟨Binary, Allowlist, "c", ""⟩] 2 (by decide)).2.1⟩

end Moroz
